import Mathlib

/-
Verification of the RainViewer radar map script (src/test2/script.js).

The script is a single-page orchestration layer: it fetches a JSON feed of
radar frame descriptors, derives tile-URL templates, keeps a cache of tile
layers keyed by frame path, and drives a play/stop/step animation over the
map's layers.  The embedding below models the module-level mutable state of
the script as an explicit `AppState` record and each top-level function as a
state transformer.  DOM/Leaflet effects are reflected as fields of the state:
the set of radar layers present on the map surface (`mapLayers`), the text of
the frame-time element (`frameTimeText`), and the play/pause button label
(`playPauseText`).  Interval timers are counted (`activeTimers`): `setInterval`
increments the count, `clearInterval` on the stored handle decrements it.
-/

namespace Radar

/-- A frame descriptor from the feed: `{path, time}` as used by the script
(`frame.path` in `buildTileUrl`, `frame.time` in the timestamp display). -/
structure Frame where
  path : String
  time : Int
deriving DecidableEq, Repr, Inhabited

/-- An overlay handle: a Leaflet tile layer created by `L.tileLayer(urlTemplate, …)`.
Creation allocates a fresh object, modelled by a unique `id`; the fixed
rendering options passed at creation (tileSize 256, opacity 0.6, zIndex 10,
maxZoom 9) are the same constants for every layer and carry no information,
so only the URL template is recorded. -/
structure Layer where
  id : Nat
  url : String
deriving DecidableEq, Repr, Inhabited

/-- The script's module-level state plus the observable DOM/map effects. -/
structure AppState where
  /-- Models `apiData.host` (the only field of `apiData` the script reads). -/
  host : String
  /-- Models `frames`: list of frame objects (past + nowcast). -/
  frames : List Frame
  /-- Models `currentFrameIndex` (a JS number; the script stores integers in it). -/
  currentFrameIndex : Int
  /-- Models `radarLayers`: cache of tile layers keyed by frame path.  A JS object
  with string keys, modelled as an association list in insertion order. -/
  radarLayers : List (String × Layer)
  /-- Allocator for fresh layer identities (`L.tileLayer` returns a new object). -/
  nextLayerId : Nat
  /-- Models `playing`: whether the animation is currently playing. -/
  playing : Bool
  /-- Number of interval timers currently scheduled. -/
  activeTimers : Nat
  /-- The radar tile layers currently added to the map surface. -/
  mapLayers : List Layer
  /-- Text content of the `frameTime` element. -/
  frameTimeText : String
  /-- Text content of the `playPause` button. -/
  playPauseText : String
deriving DecidableEq, Repr

/-- Constant `tileSize = 512`. -/
def tileSize : Nat := 512

/-- Constant `colorScheme = 2` (Universal Blue). -/
def colorScheme : Nat := 2

/-- Constant `smooth = 1`. -/
def smooth : Nat := 1

/-- Constant `snow = 1`. -/
def snow : Nat := 1

/-- Constant `extension = 'png'`. -/
def extension : String := "png"

/-- Function `buildTileUrl(frame)`:
`apiData.host + frame.path + '/' + tileSize + '/{z}/{x}/{y}/' + colorScheme + '/' + smooth + '_' + snow + '.' + extension`.
The script reads `apiData.host` from module state; it is passed here as the
explicit `host` argument (the spec's parametrisation `buildTileUrl(host, frame, options)`). -/
def buildTileUrl (host : String) (frame : Frame) : String :=
  host ++ frame.path ++ "/" ++ toString tileSize ++ "/{z}/{x}/{y}/" ++
    toString colorScheme ++ "/" ++ toString smooth ++ "_" ++ toString snow ++
    "." ++ extension

/-- The index normalization performed at the top of `loadFrame`:
`if (position < 0) position = frames.length - 1; if (position >= frames.length) position = 0;`.
(When the first branch fires, the reassigned value `n - 1` is below `n`
for `n > 0`, so the second test then fails, exactly as in sequential JS.) -/
def normalizeIndex (position : Int) (n : Nat) : Nat :=
  if position < 0 then n - 1
  else if (n : Int) ≤ position then 0
  else position.toNat

/-- Property lookup `radarLayers[path]` on the cache object (string-keyed
JS object; keys are unique, insertion order). -/
def lookupLayer (cache : List (String × Layer)) (p : String) : Option Layer :=
  match cache with
  | [] => none
  | (k, v) :: rest => if k = p then some v else lookupLayer rest p

/-- Whether `l` is one of `Object.values(radarLayers)`. -/
def cachedLayer (cache : List (String × Layer)) (l : Layer) : Bool :=
  cache.any (fun kv => kv.2 == l)

/-- Function `clearRadarLayers()`: for each cached layer, `if (map.hasLayer(layer)) map.removeLayer(layer)`;
the layers remaining on the map are those not among the cache's values. -/
def clearRadarLayers (s : AppState) : AppState :=
  { s with mapLayers := s.mapLayers.filter (fun l => !cachedLayer s.radarLayers l) }

/-- Call `layer.addTo(map)`: Leaflet's `addLayer` is a no-op when the layer is
already on the map, otherwise it adds it. -/
def addLayerToMap (l : Layer) (s : AppState) : AppState :=
  if l ∈ s.mapLayers then s else { s with mapLayers := s.mapLayers ++ [l] }

/-- Models `new Date(frame.time * 1000).toLocaleString()`: an environment-chosen
but deterministic rendering, i.e. a pure function of the timestamp. -/
def timeDisplay (t : Int) : String := "@" ++ toString (t * 1000)

/-- Lookup `frames[position]` after normalization.  The index is always in range
(see `normalizeIndex_lt`), so the default element is never returned. -/
def frameAt (s : AppState) (position : Int) : Frame :=
  s.frames.getD (normalizeIndex position s.frames.length) default

/-- Function `loadFrame(position)`: return early on an empty frame list; otherwise
normalize the index, store it in `currentFrameIndex`, create and cache the
frame's tile layer if absent, remove all cached layers from the map, add the
frame's layer, and publish the frame time. -/
def loadFrame (position : Int) (s : AppState) : AppState :=
  if s.frames.length = 0 then s
  else
    let p := normalizeIndex position s.frames.length
    let frame := frameAt s position
    let s1 := { s with currentFrameIndex := (p : Int) }
    let ls2 :=
      match lookupLayer s1.radarLayers frame.path with
      | some l => (l, s1)
      | none =>
        let l : Layer := ⟨s1.nextLayerId, buildTileUrl s1.host frame⟩
        (l, { s1 with radarLayers := s1.radarLayers ++ [(frame.path, l)],
                      nextLayerId := s1.nextLayerId + 1 })
    let s3 := clearRadarLayers ls2.2
    let s4 := addLayerToMap ls2.1 s3
    { s4 with frameTimeText := timeDisplay frame.time }

/-- Function `nextFrame()`: `loadFrame(currentFrameIndex + 1)`. -/
def nextFrame (s : AppState) : AppState :=
  loadFrame (s.currentFrameIndex + 1) s

/-- Function `prevFrame()`: `loadFrame(currentFrameIndex - 1)`. -/
def prevFrame (s : AppState) : AppState :=
  loadFrame (s.currentFrameIndex - 1) s

/-- Function `startAnimation()`: guard `if (playing) return`; otherwise set `playing`,
set the button label to Stop, and schedule an interval timer. -/
def startAnimation (s : AppState) : AppState :=
  if s.playing then s
  else { s with playing := true, playPauseText := "Stop",
                activeTimers := s.activeTimers + 1 }

/-- Function `stopAnimation()`: guard `if (!playing) return`; otherwise clear `playing`,
set the button label to Play, and cancel the stored interval timer. -/
def stopAnimation (s : AppState) : AppState :=
  if !s.playing then s
  else { s with playing := false, playPauseText := "Play",
                activeTimers := s.activeTimers - 1 }

/-- The feed's `radar` object: two optional frame arrays.  A missing key or a
non-array value both fail the script's `Array.isArray` test and are modelled
as `none`. -/
structure RadarData where
  past : Option (List Frame)
  nowcast : Option (List Frame)
deriving DecidableEq, Repr

/-- The parsed feed body: `{host, radar}`. -/
structure ApiData where
  host : String
  radar : Option RadarData
deriving DecidableEq, Repr

/-- Frame-list composition in the success handler of `fetchFrames`:
`frames = []`, then `frames = data.radar.past.slice()` when `data.radar` exists
and `past` is an array, then `frames = frames.concat(data.radar.nowcast)` when
`nowcast` is an array. -/
def composeFrames (d : ApiData) : List Frame :=
  let fs : List Frame := []
  let fs := match d.radar with
    | some r => match r.past with
      | some past => past
      | none => fs
    | none => fs
  let fs := match d.radar with
    | some r => match r.nowcast with
      | some nc => fs ++ nc
      | none => fs
    | none => fs
  fs

/-- Outcome of the fetch: a non-ok HTTP status (the handler throws), a body
that fails to parse (`response.json()` rejects), or parsed data.  Both error
outcomes reach the same `.catch` handler. -/
inductive FetchResult where
  | httpError
  | parseError
  | ok (d : ApiData)
deriving DecidableEq, Repr

/-- The state transition performed by `fetchFrames` once the fetch settles:
on either error, log and set the status text to `'Error loading data'`; on
success, store `apiData`, compose the frame list, and either report
`'No data'` (empty list) or display the last frame. -/
def fetchFramesStep (r : FetchResult) (s : AppState) : AppState :=
  match r with
  | .httpError => { s with frameTimeText := "Error loading data" }
  | .parseError => { s with frameTimeText := "Error loading data" }
  | .ok d =>
    let fs := composeFrames d
    let s1 := { s with host := d.host, frames := fs }
    if fs.length = 0 then { s1 with frameTimeText := "No data" }
    else loadFrame ((fs.length : Int) - 1) s1

/-- The outside events the script reacts to: the three button
click handlers, an animation timer tick (which fires only while playing), and
the settlement of the feed fetch. -/
inductive Event where
  | playPauseClick
  | prevClick
  | nextClick
  | tick
  | fetchSettled (r : FetchResult)
deriving DecidableEq, Repr

/-- One event dispatch. `playPause` toggles the animation; `prevFrame` /
`nextFrame` buttons first call `stopAnimation()` then step; a timer tick runs
`nextFrame()` (ticks occur only while the interval is scheduled, i.e. while
playing); fetch settlement runs the corresponding `fetchFrames` handler. -/
def step (e : Event) (s : AppState) : AppState :=
  match e with
  | .playPauseClick => if s.playing then stopAnimation s else startAnimation s
  | .prevClick => prevFrame (stopAnimation s)
  | .nextClick => nextFrame (stopAnimation s)
  | .tick => if s.playing then nextFrame s else s
  | .fetchSettled r => fetchFramesStep r s

/-- Run a sequence of `loadFrame` calls (a left fold over the positions). -/
def runLoads (ps : List Int) (s : AppState) : AppState :=
  ps.foldl (fun t p => loadFrame p t) s

/-- Run a sequence of events. -/
def runEvents (es : List Event) (s : AppState) : AppState :=
  es.foldl (fun t e => step e t) s

/-- The script's state at startup: empty frame list, index 0, empty cache,
not playing, no timer, no radar layer on the map.  The initial button label
comes from the hosting page; the script only ever writes `'Play'`/`'Stop'`. -/
def initState : AppState :=
  { host := ""
    frames := []
    currentFrameIndex := 0
    radarLayers := []
    nextLayerId := 0
    playing := false
    activeTimers := 0
    mapLayers := []
    frameTimeText := ""
    playPauseText := "Play" }

/-! ### Basic lemmas about the embedding -/

/-- The normalized index is always in range for a non-empty frame list. -/
theorem normalizeIndex_lt (i : Int) (n : Nat) (hn : 0 < n) : normalizeIndex i n < n := by
  unfold normalizeIndex
  split
  · omega
  · split
    · omega
    · omega

/-- A path found in the cache maps to one of the cache's values. -/
theorem cachedLayer_of_lookup (c : List (String × Layer)) (p : String) (l : Layer)
    (h : lookupLayer c p = some l) : cachedLayer c l = true := by
  induction c with
  | nil => simp [lookupLayer] at h
  | cons kv rest ih =>
    obtain ⟨k, v⟩ := kv
    simp only [lookupLayer] at h
    by_cases hk : k = p
    · rw [if_pos hk] at h
      cases h
      simp [cachedLayer]
    · rw [if_neg hk] at h
      have := ih h
      simp [cachedLayer] at this ⊢
      exact Or.inr this

/-- Appending entries to the cache preserves membership of a value. -/
theorem cachedLayer_append_left (c d : List (String × Layer)) (l : Layer)
    (h : cachedLayer c l = true) : cachedLayer (c ++ d) l = true := by
  simp [cachedLayer, List.any_append] at h ⊢
  exact Or.inl h

/-- The entry just appended is among the cache's values. -/
theorem cachedLayer_append_self (c : List (String × Layer)) (p : String) (l : Layer) :
    cachedLayer (c ++ [(p, l)]) l = true := by
  simp [cachedLayer, List.any_append]

/-- After a lookup miss, looking up the freshly appended entry succeeds. -/
theorem lookupLayer_append_self (c : List (String × Layer)) (p : String) (l : Layer)
    (h : lookupLayer c p = none) : lookupLayer (c ++ [(p, l)]) p = some l := by
  induction c with
  | nil => simp [lookupLayer]
  | cons kv rest ih =>
    obtain ⟨k, v⟩ := kv
    simp only [lookupLayer, List.cons_append] at h ⊢
    by_cases hk : k = p
    · rw [if_pos hk] at h
      cases h
    · rw [if_neg hk] at h ⊢
      exact ih h

/-- A cached layer never survives `clearRadarLayers`' filter. -/
theorem not_mem_filter_cached (c : List (String × Layer)) (xs : List Layer) (l : Layer)
    (hc : cachedLayer c l = true) :
    l ∉ xs.filter (fun x => !cachedLayer c x) := by
  intro hmem
  rw [List.mem_filter] at hmem
  rw [hc] at hmem
  simp at hmem

/-- On an empty frame list, `loadFrame` is the identity. -/
theorem loadFrame_empty (i : Int) (s : AppState) (h : s.frames.length = 0) :
    loadFrame i s = s := by
  unfold loadFrame
  rw [if_pos h]

/-- Shape of `loadFrame` on a cache hit: the index is stored, all cached
layers are removed from the map, the cached layer for the frame is added, and
the timestamp is published; the cache itself is unchanged. -/
theorem loadFrame_hit (i : Int) (s : AppState) (l : Layer)
    (hne : s.frames.length ≠ 0)
    (hl : lookupLayer s.radarLayers (frameAt s i).path = some l) :
    loadFrame i s =
      { s with
          currentFrameIndex := (normalizeIndex i s.frames.length : Int),
          mapLayers := s.mapLayers.filter (fun x => !cachedLayer s.radarLayers x) ++ [l],
          frameTimeText := timeDisplay (frameAt s i).time } := by
  unfold loadFrame
  rw [if_neg hne]
  simp only [hl, clearRadarLayers, addLayerToMap]
  rw [if_neg (not_mem_filter_cached s.radarLayers s.mapLayers l
        (cachedLayer_of_lookup s.radarLayers (frameAt s i).path l hl))]

/-- Shape of `loadFrame` on a cache miss: as on a hit, but a fresh layer is
created for the frame's tile URL, cached under the frame's path, and added. -/
theorem loadFrame_miss (i : Int) (s : AppState)
    (hne : s.frames.length ≠ 0)
    (hl : lookupLayer s.radarLayers (frameAt s i).path = none) :
    loadFrame i s =
      { s with
          currentFrameIndex := (normalizeIndex i s.frames.length : Int),
          radarLayers := s.radarLayers ++
            [((frameAt s i).path, ⟨s.nextLayerId, buildTileUrl s.host (frameAt s i)⟩)],
          nextLayerId := s.nextLayerId + 1,
          mapLayers := s.mapLayers.filter
              (fun x => !cachedLayer (s.radarLayers ++
                [((frameAt s i).path, ⟨s.nextLayerId, buildTileUrl s.host (frameAt s i)⟩)]) x) ++
            [⟨s.nextLayerId, buildTileUrl s.host (frameAt s i)⟩],
          frameTimeText := timeDisplay (frameAt s i).time } := by
  unfold loadFrame
  rw [if_neg hne]
  simp only [hl, clearRadarLayers, addLayerToMap]
  rw [if_neg (not_mem_filter_cached _ s.mapLayers _
        (cachedLayer_append_self s.radarLayers (frameAt s i).path
          ⟨s.nextLayerId, buildTileUrl s.host (frameAt s i)⟩))]

/-- The call `loadFrame i s` leaves the frame list, the playback flag, the timer count,
the button label and the host untouched. -/
theorem loadFrame_fields (i : Int) (s : AppState) :
    (loadFrame i s).frames = s.frames ∧
    (loadFrame i s).playing = s.playing ∧
    (loadFrame i s).activeTimers = s.activeTimers ∧
    (loadFrame i s).playPauseText = s.playPauseText ∧
    (loadFrame i s).host = s.host := by
  by_cases h : s.frames.length = 0
  · rw [loadFrame_empty i s h]
    exact ⟨rfl, rfl, rfl, rfl, rfl⟩
  · cases hl : lookupLayer s.radarLayers (frameAt s i).path with
    | none =>
      rw [loadFrame_miss i s h hl]
      exact ⟨rfl, rfl, rfl, rfl, rfl⟩
    | some l =>
      rw [loadFrame_hit i s l h hl]
      exact ⟨rfl, rfl, rfl, rfl, rfl⟩

/-- The layer cache only ever grows: a cached value stays cached across
`loadFrame`. -/
theorem loadFrame_cache_mono (i : Int) (s : AppState) (l : Layer)
    (h : cachedLayer s.radarLayers l = true) :
    cachedLayer (loadFrame i s).radarLayers l = true := by
  by_cases he : s.frames.length = 0
  · rw [loadFrame_empty i s he]; exact h
  · cases hl : lookupLayer s.radarLayers (frameAt s i).path with
    | none =>
      rw [loadFrame_miss i s he hl]
      exact cachedLayer_append_left _ _ _ h
    | some l' =>
      rw [loadFrame_hit i s l' he hl]
      exact h

/-- The playback flag is unchanged by `loadFrame`. -/
theorem loadFrame_playing (i : Int) (s : AppState) :
    (loadFrame i s).playing = s.playing := (loadFrame_fields i s).2.1

/-- The timer count is unchanged by `loadFrame`. -/
theorem loadFrame_activeTimers (i : Int) (s : AppState) :
    (loadFrame i s).activeTimers = s.activeTimers := (loadFrame_fields i s).2.2.1

/-! ### Claims -/

/-- C1: For every integer `i` and every non-empty frame collection of length
`n`, the index normalization performed by `loadFrame` returns a value in
`[0, n)`; `normalize(-1, n) = n-1`, `normalize(n, n) = 0`, and
`normalize(k, n) = k` for `0 ≤ k < n`; every negative input maps to the last
valid index and every input `≥ n` maps to zero; `loadFrame` stores exactly
this normalized index in `currentFrameIndex`. -/
theorem normalize_wraps (i : Int) (n : Nat) (hn : 0 < n) :
    normalizeIndex i n < n ∧
    normalizeIndex (-1) n = n - 1 ∧
    normalizeIndex (n : Int) n = 0 ∧
    (∀ k : Nat, k < n → normalizeIndex (k : Int) n = k) ∧
    (i < 0 → normalizeIndex i n = n - 1) ∧
    ((n : Int) ≤ i → normalizeIndex i n = 0) ∧
    (∀ s : AppState, s.frames.length = n →
      (loadFrame i s).currentFrameIndex = (normalizeIndex i n : Int)) := by
  refine ⟨normalizeIndex_lt i n hn, ?_, ?_, ?_, ?_, ?_, ?_⟩
  · unfold normalizeIndex
    rw [if_pos (by omega : (-1 : Int) < 0)]
  · unfold normalizeIndex
    rw [if_neg (by omega : ¬ (n : Int) < 0), if_pos (le_refl (n : Int))]
  · intro k hk
    unfold normalizeIndex
    rw [if_neg (by omega : ¬ (k : Int) < 0), if_neg (by omega : ¬ (n : Int) ≤ (k : Int))]
    omega
  · intro hneg
    unfold normalizeIndex
    rw [if_pos hneg]
  · intro hge
    unfold normalizeIndex
    rw [if_neg (by omega : ¬ i < 0), if_pos hge]
  · intro s hs
    have hne : s.frames.length ≠ 0 := by omega
    cases hl : lookupLayer s.radarLayers (frameAt s i).path with
    | none =>
      rw [loadFrame_miss i s hne hl]
      simp [hs]
    | some l =>
      rw [loadFrame_hit i s l hne hl]
      simp [hs]

/-- Witness for C1 at `n = 3`. -/
theorem normalize_wraps_witness :
    0 < 3 ∧ normalizeIndex (-1) 3 = 2 ∧ normalizeIndex 3 3 = 0 ∧
      normalizeIndex 7 3 = 0 ∧ normalizeIndex 2 3 = 2 :=
  ⟨by decide,
   (normalize_wraps 7 3 (by decide)).2.1,
   (normalize_wraps 7 3 (by decide)).2.2.1,
   (normalize_wraps 7 3 (by decide)).2.2.2.2.2.1 (by decide),
   (normalize_wraps 7 3 (by decide)).2.2.2.1 2 (by decide)⟩

/-- C3: For every host string and every frame, `buildTileUrl` returns exactly
the concatenation `<host><frame.path>/<tileSize>/{z}/{x}/{y}/<colorScheme>/<smooth>_<snow>.<extension>`
with the script's fixed options (tileSize 512, colorScheme 2, smooth 1,
snow 1, extension png); in particular with path `/v2/radar/1755471000` it
returns `<host>/v2/radar/1755471000/512/{z}/{x}/{y}/2/1_1.png`. -/
theorem buildTileUrl_template (host p : String) (t : Int) :
    buildTileUrl host ⟨p, t⟩ = host ++ (p ++ "/512/{z}/{x}/{y}/2/1_1.png") ∧
    buildTileUrl host ⟨"/v2/radar/1755471000", t⟩ =
      host ++ "/v2/radar/1755471000/512/{z}/{x}/{y}/2/1_1.png" := by
  constructor
  · unfold buildTileUrl
    simp only [String.append_assoc]
    congr 1
  · unfold buildTileUrl
    simp only [String.append_assoc]
    congr 1

/-- C9: `buildTileUrl` is a pure total function of host and frame: it is
deterministic (its result depends only on the host and the frame's path, not
on the timestamp), it succeeds on every input including the empty path, and
its result always has the template shape — host, then path, then the fixed
26-character option tail. -/
theorem buildTileUrl_pure_total (host p q : String) (t u : Int) :
    buildTileUrl host ⟨p, t⟩ = host ++ (p ++ "/512/{z}/{x}/{y}/2/1_1.png") ∧
    (p = q → buildTileUrl host ⟨p, t⟩ = buildTileUrl host ⟨q, u⟩) ∧
    buildTileUrl host ⟨"", t⟩ = host ++ "/512/{z}/{x}/{y}/2/1_1.png" ∧
    (buildTileUrl host ⟨p, t⟩).length = host.length + p.length + 26 := by
  have hgen : ∀ (r : String) (v : Int),
      buildTileUrl host ⟨r, v⟩ = host ++ (r ++ "/512/{z}/{x}/{y}/2/1_1.png") := by
    intro r v
    unfold buildTileUrl
    simp only [String.append_assoc]
    congr 1
  refine ⟨hgen p t, ?_, ?_, ?_⟩
  · intro hpq
    rw [hgen p t, hgen q u, hpq]
  · rw [hgen "" t]
    congr 1
  · rw [hgen p t]
    have h26 : ("/512/{z}/{x}/{y}/2/1_1.png" : String).length = 26 := rfl
    simp [String.length_append, h26]
    omega

/-- Witness for C9 at concrete inputs. -/
theorem buildTileUrl_pure_total_witness :
    ("a" : String) = "a" ∧ buildTileUrl "H" ⟨"a", 5⟩ = buildTileUrl "H" ⟨"a", 9⟩ :=
  ⟨rfl, (buildTileUrl_pure_total "H" "a" "a" 5 9).2.1 rfl⟩

/-- Replacing the index, map layers and timestamp of a state with their
current values is the identity. -/
theorem update_eq_self (s : AppState) (c : Int) (m : List Layer) (ft : String)
    (hc : c = s.currentFrameIndex) (hm : m = s.mapLayers) (hf : ft = s.frameTimeText) :
    { s with currentFrameIndex := c, mapLayers := m, frameTimeText := ft } = s := by
  cases s
  subst hc hm hf
  rfl

/-- The `clearRadarLayers` filter is idempotent. -/
theorem filter_not_cached_idem (c : List (String × Layer)) (xs : List Layer) :
    (xs.filter (fun x => !cachedLayer c x)).filter (fun x => !cachedLayer c x) =
      xs.filter (fun x => !cachedLayer c x) := by
  rw [List.filter_filter]
  simp

/-- Idempotence of `loadFrame`: displaying an index twice in a row leaves the
state exactly as after the first display. -/
theorem loadFrame_idem (i : Int) (s : AppState) :
    loadFrame i (loadFrame i s) = loadFrame i s := by
  by_cases hne : s.frames.length = 0
  · rw [loadFrame_empty i s hne, loadFrame_empty i s hne]
  · have hframes : (loadFrame i s).frames = s.frames := (loadFrame_fields i s).1
    have hfa : frameAt (loadFrame i s) i = frameAt s i := by
      unfold frameAt
      rw [hframes]
    have hne2 : (loadFrame i s).frames.length ≠ 0 := by rw [hframes]; exact hne
    cases hl : lookupLayer s.radarLayers (frameAt s i).path with
    | some l =>
      have ht := loadFrame_hit i s l hne hl
      have hcache : (loadFrame i s).radarLayers = s.radarLayers := by rw [ht]
      have hcl : cachedLayer s.radarLayers l = true :=
        cachedLayer_of_lookup _ _ _ hl
      have hlookup2 :
          lookupLayer (loadFrame i s).radarLayers (frameAt (loadFrame i s) i).path = some l := by
        rw [hcache, hfa]; exact hl
      rw [loadFrame_hit i (loadFrame i s) l hne2 hlookup2]
      apply update_eq_self
      · rw [hframes, ht]
      · rw [hcache]
        conv_lhs => rw [ht]
        conv_rhs => rw [ht]
        simp only [List.filter_append, filter_not_cached_idem]
        simp [List.filter_cons, hcl]
      · rw [hfa, ht]
    | none =>
      have ht := loadFrame_miss i s hne hl
      have hcache : (loadFrame i s).radarLayers =
          s.radarLayers ++
            [((frameAt s i).path, ⟨s.nextLayerId, buildTileUrl s.host (frameAt s i)⟩)] := by
        rw [ht]
      have hcl : cachedLayer ((loadFrame i s).radarLayers)
          ⟨s.nextLayerId, buildTileUrl s.host (frameAt s i)⟩ = true := by
        rw [hcache]
        exact cachedLayer_append_self _ _ _
      have hlookup2 :
          lookupLayer (loadFrame i s).radarLayers (frameAt (loadFrame i s) i).path =
            some ⟨s.nextLayerId, buildTileUrl s.host (frameAt s i)⟩ := by
        rw [hcache, hfa]
        exact lookupLayer_append_self _ _ _ hl
      rw [loadFrame_hit i (loadFrame i s) _ hne2 hlookup2]
      apply update_eq_self
      · rw [hframes, ht]
      · rw [hcache]
        conv_lhs => rw [ht]
        conv_rhs => rw [ht]
        simp only [List.filter_append, filter_not_cached_idem]
        simp [List.filter_cons, cachedLayer_append_self]
      · rw [hfa, ht]

/-- C4: Displaying the same in-range index `k` twice in a row is idempotent:
the second `loadFrame` call leaves the whole state — in particular the visible
overlay, the overlay cache, the current index and the timestamp text —
identical to the state after the first call, and allocates no additional
overlay handle (the cache and the handle allocator are unchanged). -/
theorem display_idempotent (k : Int) (s : AppState)
    (_hk0 : 0 ≤ k) (_hkn : k < (s.frames.length : Int)) :
    loadFrame k (loadFrame k s) = loadFrame k s ∧
    (loadFrame k (loadFrame k s)).mapLayers = (loadFrame k s).mapLayers ∧
    (loadFrame k (loadFrame k s)).radarLayers = (loadFrame k s).radarLayers ∧
    (loadFrame k (loadFrame k s)).nextLayerId = (loadFrame k s).nextLayerId ∧
    (loadFrame k (loadFrame k s)).currentFrameIndex = (loadFrame k s).currentFrameIndex ∧
    (loadFrame k (loadFrame k s)).frameTimeText = (loadFrame k s).frameTimeText := by
  have h := loadFrame_idem k s
  exact ⟨h, by rw [h], by rw [h], by rw [h], by rw [h], by rw [h]⟩

/-- Witness for C4 on a one-frame collection at index 0. -/
theorem display_idempotent_witness :
    (0 : Int) ≤ 0 ∧
    (0 : Int) < (({ initState with frames := [⟨"/a", 1⟩] } : AppState).frames.length : Int) ∧
    loadFrame 0 (loadFrame 0 { initState with frames := [⟨"/a", 1⟩] }) =
      loadFrame 0 { initState with frames := [⟨"/a", 1⟩] } :=
  ⟨by decide, by decide,
   (display_idempotent 0 { initState with frames := [⟨"/a", 1⟩] } (by decide) (by decide)).1⟩

/-- On a non-empty frame list, `loadFrame` leaves exactly one radar layer on
the map — a cached one — provided every radar layer currently on the map is
cached (an invariant of all reachable states). -/
theorem loadFrame_singleton (i : Int) (s : AppState)
    (hinv : ∀ l ∈ s.mapLayers, cachedLayer s.radarLayers l = true)
    (hne : s.frames.length ≠ 0) :
    ∃ l, (loadFrame i s).mapLayers = [l] ∧
      cachedLayer (loadFrame i s).radarLayers l = true := by
  cases hl : lookupLayer s.radarLayers (frameAt s i).path with
  | some l =>
    refine ⟨l, ?_, ?_⟩
    · rw [loadFrame_hit i s l hne hl]
      have hnil : s.mapLayers.filter (fun x => !cachedLayer s.radarLayers x) = [] := by
        rw [List.filter_eq_nil_iff]
        intro a ha
        simp [hinv a ha]
      simp [hnil]
    · rw [loadFrame_hit i s l hne hl]
      exact cachedLayer_of_lookup _ _ _ hl
  | none =>
    refine ⟨⟨s.nextLayerId, buildTileUrl s.host (frameAt s i)⟩, ?_, ?_⟩
    · rw [loadFrame_miss i s hne hl]
      have hnil : s.mapLayers.filter
          (fun x => !cachedLayer (s.radarLayers ++
            [((frameAt s i).path, ⟨s.nextLayerId, buildTileUrl s.host (frameAt s i)⟩)]) x) = [] := by
        rw [List.filter_eq_nil_iff]
        intro a ha
        simp [cachedLayer_append_left _ _ _ (hinv a ha)]
      simp [hnil]
    · rw [loadFrame_miss i s hne hl]
      exact cachedLayer_append_self _ _ _

/-- The all-map-layers-are-cached invariant is preserved by `loadFrame`. -/
theorem loadFrame_inv (i : Int) (s : AppState)
    (hinv : ∀ l ∈ s.mapLayers, cachedLayer s.radarLayers l = true) :
    ∀ l ∈ (loadFrame i s).mapLayers, cachedLayer (loadFrame i s).radarLayers l = true := by
  by_cases hne : s.frames.length = 0
  · rw [loadFrame_empty i s hne]
    exact hinv
  · obtain ⟨l, hml, hcl⟩ := loadFrame_singleton i s hinv hne
    intro x hx
    rw [hml] at hx
    simp at hx
    rw [hx]
    exact hcl

/-- On an empty frame list, `runLoads` does nothing. -/
theorem runLoads_empty (ps : List Int) (s : AppState) (h : s.frames.length = 0) :
    runLoads ps s = s := by
  induction ps with
  | nil => rfl
  | cons p ps ih =>
    show runLoads ps (loadFrame p s) = s
    rw [loadFrame_empty p s h]
    exact ih

/-- After at least one `loadFrame` call on a non-empty frame list, exactly one
radar layer is on the map (given the caching invariant). -/
theorem runLoads_singleton (ps : List Int) (s : AppState)
    (hinv : ∀ l ∈ s.mapLayers, cachedLayer s.radarLayers l = true)
    (hne : s.frames.length ≠ 0) (hps : ps ≠ []) :
    (runLoads ps s).mapLayers.length = 1 := by
  induction ps generalizing s with
  | nil => exact absurd rfl hps
  | cons p ps ih =>
    show (runLoads ps (loadFrame p s)).mapLayers.length = 1
    have hinv' := loadFrame_inv p s hinv
    have hne' : (loadFrame p s).frames.length ≠ 0 := by
      rw [(loadFrame_fields p s).1]; exact hne
    cases ps with
    | nil =>
      obtain ⟨l, hml, _⟩ := loadFrame_singleton p s hinv hne
      show (loadFrame p s).mapLayers.length = 1
      rw [hml]
      rfl
    | cons q qs =>
      exact ih (loadFrame p s) hinv' hne' (by simp)

/-- C5: After any finite sequence of `loadFrame` calls starting from a state
with no radar layer on the map, at most one radar layer is on the map; if the
frame collection is empty, the map stays radar-free, and if it is non-empty
and at least one call was made, exactly one radar layer is active. -/
theorem at_most_one_overlay (s : AppState) (ps : List Int)
    (h0 : s.mapLayers = []) :
    (runLoads ps s).mapLayers.length ≤ 1 ∧
    (s.frames = [] → (runLoads ps s).mapLayers = []) ∧
    (s.frames ≠ [] → ps ≠ [] → (runLoads ps s).mapLayers.length = 1) := by
  have hinv : ∀ l ∈ s.mapLayers, cachedLayer s.radarLayers l = true := by
    rw [h0]; intro l hl; cases hl
  refine ⟨?_, ?_, ?_⟩
  · by_cases hf : s.frames.length = 0
    · rw [runLoads_empty ps s hf, h0]
      decide
    · cases hp : ps with
      | nil =>
        show s.mapLayers.length ≤ 1
        rw [h0]
        decide
      | cons q qs =>
        rw [runLoads_singleton (q :: qs) s hinv hf (by simp)]
  · intro hf
    rw [runLoads_empty ps s (by rw [hf]; rfl), h0]
  · intro hf hps
    have hlen : s.frames.length ≠ 0 := by
      intro h
      exact hf (List.length_eq_zero.mp h)
    exact runLoads_singleton ps s hinv hlen hps

/-- Reduction of the success branch of `fetchFramesStep`. -/
theorem fetchFramesStep_ok (d : ApiData) (s : AppState) :
    fetchFramesStep (.ok d) s =
      if (composeFrames d).length = 0 then
        { s with host := d.host, frames := composeFrames d, frameTimeText := "No data" }
      else
        loadFrame (((composeFrames d).length : Int) - 1)
          { s with host := d.host, frames := composeFrames d } := rfl

/-- The timers-iff-playing invariant is preserved by `startAnimation`. -/
theorem startAnimation_inv (s : AppState)
    (h : s.activeTimers = if s.playing then 1 else 0) :
    (startAnimation s).activeTimers = if (startAnimation s).playing then 1 else 0 := by
  cases hp : s.playing with
  | true =>
    rw [hp] at h
    simp at h
    simp [startAnimation, hp, h]
  | false =>
    rw [hp] at h
    simp at h
    simp [startAnimation, hp, h]

/-- The timers-iff-playing invariant is preserved by `stopAnimation`. -/
theorem stopAnimation_inv (s : AppState)
    (h : s.activeTimers = if s.playing then 1 else 0) :
    (stopAnimation s).activeTimers = if (stopAnimation s).playing then 1 else 0 := by
  cases hp : s.playing with
  | true =>
    rw [hp] at h
    simp at h
    simp [stopAnimation, hp, h]
  | false =>
    rw [hp] at h
    simp at h
    simp [stopAnimation, hp, h]

/-- The playback flag and the timers are never touched by `fetchFramesStep`. -/
theorem fetchFramesStep_playback (r : FetchResult) (s : AppState) :
    (fetchFramesStep r s).playing = s.playing ∧
    (fetchFramesStep r s).activeTimers = s.activeTimers := by
  cases r with
  | httpError => exact ⟨rfl, rfl⟩
  | parseError => exact ⟨rfl, rfl⟩
  | ok d =>
    rw [fetchFramesStep_ok]
    by_cases h : (composeFrames d).length = 0
    · rw [if_pos h]
      exact ⟨rfl, rfl⟩
    · rw [if_neg h]
      refine ⟨?_, ?_⟩
      · rw [(loadFrame_fields _ _).2.1]
      · rw [(loadFrame_fields _ _).2.2.1]

/-- Every event dispatch preserves the timers-iff-playing invariant. -/
theorem step_timerInv (e : Event) (s : AppState)
    (h : s.activeTimers = if s.playing then 1 else 0) :
    (step e s).activeTimers = if (step e s).playing then 1 else 0 := by
  cases e with
  | playPauseClick =>
    simp only [step]
    by_cases hp : s.playing
    · simp only [if_pos hp]
      exact stopAnimation_inv s h
    · simp only [if_neg hp]
      exact startAnimation_inv s h
  | prevClick =>
    simp only [step, prevFrame]
    simp only [loadFrame_playing, loadFrame_activeTimers]
    exact stopAnimation_inv s h
  | nextClick =>
    simp only [step, nextFrame]
    simp only [loadFrame_playing, loadFrame_activeTimers]
    exact stopAnimation_inv s h
  | tick =>
    simp only [step]
    by_cases hp : s.playing
    · simp only [if_pos hp]
      simp only [nextFrame, loadFrame_playing, loadFrame_activeTimers]
      exact h
    · simp only [if_neg hp]
      rw [h, if_neg hp]
  | fetchSettled r =>
    simp only [step]
    simp only [(fetchFramesStep_playback r s).1, (fetchFramesStep_playback r s).2]
    exact h

/-- The timers-iff-playing invariant holds in every reachable state. -/
theorem runEvents_timerInv (es : List Event) :
    (runEvents es initState).activeTimers =
      if (runEvents es initState).playing then 1 else 0 := by
  suffices h : ∀ (es : List Event) (s : AppState),
      s.activeTimers = (if s.playing then 1 else 0) →
      (runEvents es s).activeTimers = if (runEvents es s).playing then 1 else 0 from
    h es initState rfl
  intro es
  induction es with
  | nil => intro s hs; exact hs
  | cons e es ih =>
    intro s hs
    exact ih (step e s) (step_timerInv e s hs)

/-- C6: The animation driver's `start` and `stop` are each no-ops in their
target state: `start` is idempotent (so `start(); start()` schedules no second
timer — from an invariant state it leaves exactly one timer and `playing`
true), `stop` on a stopped state changes nothing, and in every state reachable
by event dispatch from startup a timer is scheduled iff `playing` is true. -/
theorem animation_toggle (s : AppState) (es : List Event) :
    startAnimation (startAnimation s) = startAnimation s ∧
    (s.playing = false → stopAnimation s = s) ∧
    stopAnimation (stopAnimation s) = stopAnimation s ∧
    (s.activeTimers = (if s.playing then 1 else 0) →
      (startAnimation (startAnimation s)).activeTimers = 1 ∧
      (startAnimation (startAnimation s)).playing = true) ∧
    (runEvents es initState).activeTimers =
      if (runEvents es initState).playing then 1 else 0 := by
  have hss : startAnimation (startAnimation s) = startAnimation s := by
    cases hp : s.playing with
    | true => simp [startAnimation, hp]
    | false => simp [startAnimation, hp]
  refine ⟨hss, ?_, ?_, ?_, runEvents_timerInv es⟩
  · intro hp
    simp [stopAnimation, hp]
  · cases hp : s.playing with
    | true => simp [stopAnimation, hp]
    | false => simp [stopAnimation, hp]
  · intro hinv
    rw [hss]
    cases hp : s.playing with
    | true =>
      rw [hp] at hinv
      simp at hinv
      exact ⟨by simp [startAnimation, hp, hinv], by simp [startAnimation, hp]⟩
    | false =>
      rw [hp] at hinv
      simp at hinv
      exact ⟨by simp [startAnimation, hp, hinv], by simp [startAnimation, hp]⟩

/-- Witness for C6 at the startup state. -/
theorem animation_toggle_witness :
    initState.activeTimers = (if initState.playing then 1 else 0) ∧
    initState.playing = false ∧
    stopAnimation initState = initState ∧
    (startAnimation (startAnimation initState)).activeTimers = 1 :=
  ⟨rfl, rfl,
   (animation_toggle initState []).2.1 rfl,
   ((animation_toggle initState []).2.2.2.1 rfl).1⟩

/-- Witness for C5: three display calls on a two-frame collection. -/
theorem at_most_one_overlay_witness :
    ({ initState with frames := [⟨"/a", 1⟩, ⟨"/b", 2⟩] } : AppState).mapLayers = [] ∧
    (runLoads [0, -1, 5]
      { initState with frames := [⟨"/a", 1⟩, ⟨"/b", 2⟩] }).mapLayers.length = 1 :=
  ⟨rfl,
   (at_most_one_overlay { initState with frames := [⟨"/a", 1⟩, ⟨"/b", 2⟩] } [0, -1, 5]
      rfl).2.2 (by decide) (by decide)⟩

/-- C2: The feed loader builds the frame collection as past followed by
nowcast, treating a missing (or non-array) field as empty; with an empty
`radar` object the collection is empty and the status text becomes
"No data". -/
theorem feed_composition (A B C : Frame) (h : String) (s : AppState) :
    composeFrames ⟨h, some ⟨some [A, B], some [C]⟩⟩ = [A, B, C] ∧
    composeFrames ⟨h, some ⟨some [A], none⟩⟩ = [A] ∧
    composeFrames ⟨h, some ⟨none, none⟩⟩ = [] ∧
    (fetchFramesStep (.ok ⟨h, some ⟨none, none⟩⟩) s).frames = [] ∧
    (fetchFramesStep (.ok ⟨h, some ⟨none, none⟩⟩) s).frameTimeText = "No data" :=
  ⟨rfl, rfl, rfl, rfl, rfl⟩

/-- C7: On a failed fetch (non-success HTTP status) or a parse failure, the
status text becomes exactly "Error loading data" and the frame collection,
current index, overlay cache, playback state, timers and map layers are all
left unchanged. -/
theorem fetch_error_handling (s : AppState) :
    (fetchFramesStep .httpError s).frameTimeText = "Error loading data" ∧
    (fetchFramesStep .parseError s).frameTimeText = "Error loading data" ∧
    (fetchFramesStep .httpError s).frames = s.frames ∧
    (fetchFramesStep .httpError s).currentFrameIndex = s.currentFrameIndex ∧
    (fetchFramesStep .httpError s).radarLayers = s.radarLayers ∧
    (fetchFramesStep .httpError s).playing = s.playing ∧
    (fetchFramesStep .httpError s).activeTimers = s.activeTimers ∧
    (fetchFramesStep .httpError s).mapLayers = s.mapLayers ∧
    (fetchFramesStep .parseError s).frames = s.frames ∧
    (fetchFramesStep .parseError s).currentFrameIndex = s.currentFrameIndex ∧
    (fetchFramesStep .parseError s).radarLayers = s.radarLayers ∧
    (fetchFramesStep .parseError s).playing = s.playing ∧
    (fetchFramesStep .parseError s).activeTimers = s.activeTimers ∧
    (fetchFramesStep .parseError s).mapLayers = s.mapLayers :=
  ⟨rfl, rfl, rfl, rfl, rfl, rfl, rfl, rfl, rfl, rfl, rfl, rfl, rfl, rfl⟩

/-- C8: evaluation of the success handler on a feed with one past and one
nowcast frame.  The loader does call `loadFrame` with the last index of the
collection (index 1 here), but the frame thereby shown is the nowcast frame
`/p2`, not the most recent past frame `/p1` — contradicting the script's own
comment "Show the most recent past frame by default". -/
theorem default_display_nowcast_bug :
    composeFrames ⟨"h", some ⟨some [⟨"/p1", 1⟩], some [⟨"/p2", 2⟩]⟩⟩ =
      [⟨"/p1", 1⟩, ⟨"/p2", 2⟩] ∧
    (fetchFramesStep (.ok ⟨"h", some ⟨some [⟨"/p1", 1⟩], some [⟨"/p2", 2⟩]⟩⟩)
        initState).currentFrameIndex = 1 ∧
    (fetchFramesStep (.ok ⟨"h", some ⟨some [⟨"/p1", 1⟩], some [⟨"/p2", 2⟩]⟩⟩)
        initState).frameTimeText = timeDisplay 2 ∧
    timeDisplay 2 ≠ timeDisplay 1 ∧
    (fetchFramesStep (.ok ⟨"h", some ⟨some [⟨"/p1", 1⟩], some [⟨"/p2", 2⟩]⟩⟩)
        initState).mapLayers = [⟨0, buildTileUrl "h" ⟨"/p2", 2⟩⟩] := by
  refine ⟨rfl, ?_, ?_, ?_, ?_⟩ <;> decide

/-- On a non-empty frame list, `loadFrame` stores the normalized index. -/
theorem loadFrame_currentFrameIndex (i : Int) (s : AppState)
    (h : s.frames.length ≠ 0) :
    (loadFrame i s).currentFrameIndex =
      (normalizeIndex i s.frames.length : Int) := by
  cases hl : lookupLayer s.radarLayers (frameAt s i).path with
  | none => rw [loadFrame_miss i s h hl]
  | some l => rw [loadFrame_hit i s l h hl]

/-- Stepping forward from an in-range index is addition by one modulo the
collection length. -/
theorem normalizeIndex_next (c : Int) (n : Nat) (h0 : 0 ≤ c) (h1 : c < (n : Int)) :
    ((normalizeIndex (c + 1) n : Nat) : Int) = (c + 1) % (n : Int) := by
  unfold normalizeIndex
  rw [if_neg (by omega : ¬ c + 1 < 0)]
  by_cases hge : (n : Int) ≤ c + 1
  · rw [if_pos hge]
    have hn : c + 1 = (n : Int) := by omega
    rw [hn, Int.emod_self]
    rfl
  · rw [if_neg hge]
    rw [Int.emod_eq_of_lt (by omega) (by omega)]
    omega

/-- Stepping backward from an in-range index is subtraction by one modulo the
collection length. -/
theorem normalizeIndex_prev (c : Int) (n : Nat) (h0 : 0 ≤ c) (h1 : c < (n : Int)) :
    ((normalizeIndex (c - 1) n : Nat) : Int) = (c - 1) % (n : Int) := by
  unfold normalizeIndex
  by_cases hneg : c - 1 < 0
  · rw [if_pos hneg]
    have hc : c = 0 := by omega
    subst hc
    have hm1 : (0 : Int) - 1 = -1 := by ring
    rw [hm1]
    have h2 : ((-1 : Int)) % (n : Int) = ((n : Int) - 1) % (n : Int) := by
      conv_lhs => rw [show (-1 : Int) = (n : Int) - 1 + (n : Int) * (-1) by ring]
      rw [Int.add_mul_emod_self_left]
    rw [h2, Int.emod_eq_of_lt (by omega) (by omega)]
    omega
  · rw [if_neg hneg, if_neg (by omega : ¬ (n : Int) ≤ c - 1)]
    rw [Int.emod_eq_of_lt (by omega) (by omega)]
    omega

/-- The call `stopAnimation s` leaves frames and index alone, always results in a
non-playing state, and cancels the timer when the timers invariant held. -/
theorem stopAnimation_fields (s : AppState) :
    (stopAnimation s).frames = s.frames ∧
    (stopAnimation s).currentFrameIndex = s.currentFrameIndex ∧
    (stopAnimation s).playing = false ∧
    (s.activeTimers = (if s.playing then 1 else 0) →
      (stopAnimation s).activeTimers = 0) := by
  cases hp : s.playing with
  | true =>
    refine ⟨by simp [stopAnimation, hp], by simp [stopAnimation, hp],
      by simp [stopAnimation, hp], ?_⟩
    intro h
    simp at h
    simp [stopAnimation, hp, h]
  | false =>
    refine ⟨by simp [stopAnimation, hp], by simp [stopAnimation, hp],
      by simp [stopAnimation, hp], ?_⟩
    intro h
    simp at h
    simp [stopAnimation, hp, h]

/-- C10: The "previous frame" and "next frame" click handlers stop a running
animation before stepping: afterwards `playing` is false, no timer remains
scheduled (given the timers invariant), and the current index has moved by
exactly one position with wrap-around. -/
theorem click_steps (s : AppState)
    (hne : s.frames ≠ [])
    (h0 : 0 ≤ s.currentFrameIndex) (h1 : s.currentFrameIndex < (s.frames.length : Int))
    (ht : s.activeTimers = if s.playing then 1 else 0) :
    (step .nextClick s).playing = false ∧
    (step .nextClick s).activeTimers = 0 ∧
    (step .nextClick s).currentFrameIndex =
      (s.currentFrameIndex + 1) % (s.frames.length : Int) ∧
    (step .prevClick s).playing = false ∧
    (step .prevClick s).activeTimers = 0 ∧
    (step .prevClick s).currentFrameIndex =
      (s.currentFrameIndex - 1) % (s.frames.length : Int) := by
  obtain ⟨hfr, hci, hpl, hti⟩ := stopAnimation_fields s
  have hlen : (stopAnimation s).frames.length ≠ 0 := by
    rw [hfr]
    intro hnil
    exact hne (List.length_eq_zero.mp hnil)
  simp only [step, nextFrame, prevFrame]
  refine ⟨?_, ?_, ?_, ?_, ?_, ?_⟩
  · rw [loadFrame_playing]
    exact hpl
  · rw [loadFrame_activeTimers]
    exact hti ht
  · rw [loadFrame_currentFrameIndex _ _ hlen, hci, hfr]
    exact normalizeIndex_next s.currentFrameIndex s.frames.length h0 h1
  · rw [loadFrame_playing]
    exact hpl
  · rw [loadFrame_activeTimers]
    exact hti ht
  · rw [loadFrame_currentFrameIndex _ _ hlen, hci, hfr]
    exact normalizeIndex_prev s.currentFrameIndex s.frames.length h0 h1

/-- Witness for C10: next/prev clicks while playing on a two-frame state. -/
theorem click_steps_witness :
    (({ initState with frames := [⟨"/a", 1⟩, ⟨"/b", 2⟩], playing := true, activeTimers := 1, playPauseText := "Stop" } : AppState).frames ≠ []) ∧
    (step .nextClick { initState with frames := [⟨"/a", 1⟩, ⟨"/b", 2⟩], playing := true, activeTimers := 1, playPauseText := "Stop" }).playing = false :=
  ⟨by decide,
   (click_steps { initState with frames := [⟨"/a", 1⟩, ⟨"/b", 2⟩], playing := true, activeTimers := 1, playPauseText := "Stop" }
      (by decide) (by decide) (by decide) (by decide)).1⟩

end Radar
